import Mathlib

set_option maxRecDepth 100000

/- Shallow embedding of the ultracode barcode library (Rust sources under src/).

   Conventions used throughout this development:
   * Machine integers (u8, u16, u32, i32, usize) are modelled as Nat or Int.
     Wherever Rust truncates or masks, the embedding applies the same mask
     explicitly (for example v &&& 0x3FF, or &&& 0xFF on a u8 store).
   * Rust slice indexing that can panic is modelled with Option (a None result
     represents a panic); indexing that is bounds-checked by the surrounding
     code is modelled with getD after the same bound check.
   * The few f32 computations reached by the theorems below only ever divide
     small integers and round the quotient to an integer (round half away from
     zero).  On every input appearing in this file the exact rational value of
     the quotient is far enough from any half-integer that the f32 result
     coincides with the exact one, so those steps are embedded as exact
     integer arithmetic: round (a / b) = (2*a + b) / (2*b) in Nat division
     for positive a, b.
   * Loops are embedded as structural recursion; where the Rust loop variable
     is not structurally decreasing, a fuel argument bounds the iteration
     count by a quantity that provably dominates the number of iterations the
     Rust loop performs, so the embedded function computes the same result. -/

namespace Ultracode

/-- Number of one bits among the low `fuel` bits (u16 count_ones is the
fuel = 16 instance; all words handled are 15-bit). -/
def countOnes : Nat → Nat → Nat
  | 0, _ => 0
  | fuel + 1, n => n % 2 + countOnes fuel (n / 2)

/-! ### qr/format.rs -/

inductive EcLevel
  | L
  | M
  | Q
  | H
deriving DecidableEq

/-- Two EC bits per the standard: L=01, M=00, Q=11, H=10 (EcLevel::to_bits2). -/
def EcLevel.to_bits2 : EcLevel → Nat
  | EcLevel.L => 0b01
  | EcLevel.M => 0b00
  | EcLevel.Q => 0b11
  | EcLevel.H => 0b10

/-- BCH(15,5) generator 0x537. -/
def BCH15_5_GEN : Nat := 0x537

/-- Format mask 0x5412. -/
def FORMAT_MASK : Nat := 0x5412

/-- One reduction step of bch_remainder_15_5 for a given shift. -/
def bchStep (v shift : Nat) : Nat :=
  if (v >>> shift) &&& 1 = 1 then v ^^^ (BCH15_5_GEN <<< (shift - 10)) else v

/-- Remainder of (data << 10) modulo the BCH generator (bch_remainder_15_5);
the Rust loop runs shift = 14 down to 10. -/
def bch_remainder_15_5 (v : Nat) : Nat :=
  ([14, 13, 12, 11, 10].foldl bchStep v) &&& 0x3FF

/-- encode_format_word_unmasked from qr/format.rs. -/
def encode_format_word_unmasked (ec : EcLevel) (mask_id : Nat) : Nat :=
  let data5 := (ec.to_bits2 <<< 3) ||| (mask_id &&& 0x7)
  let payload := data5 <<< 10
  payload ||| bch_remainder_15_5 payload

/-- encode_format_word_masked from qr/format.rs. -/
def encode_format_word_masked (ec : EcLevel) (mask_id : Nat) : Nat :=
  encode_format_word_unmasked ec mask_id ^^^ FORMAT_MASK

/-- Hamming distance of 15-bit words (hamming15; count_ones on a u16). -/
def hamming15 (a b : Nat) : Nat := countOnes 16 (a ^^^ b)

/-- Candidate-update step inside decode_format_word: keep the strictly
closer candidate, first seen wins ties. -/
def formatBestStep (word : Nat) (best : Option (EcLevel × Nat × Nat))
    (ec : EcLevel) (mask : Nat) : Option (EcLevel × Nat × Nat) :=
  let valid := encode_format_word_masked ec mask
  let d := hamming15 word valid
  match best with
  | none => some (ec, mask, d)
  | some (be, bm, bd) => if d < bd then some (ec, mask, d) else some (be, bm, bd)

/-- decode_format_word from qr/format.rs: scan all 32 valid words
(4 EC levels x 8 masks, in that iteration order), return the closest
candidate when its distance is at most 3. -/
def decode_format_word (word : Nat) : Option (EcLevel × Nat × Nat) :=
  let best := [EcLevel.L, EcLevel.M, EcLevel.Q, EcLevel.H].foldl
    (fun b ec => (List.range 8).foldl (fun b mask => formatBestStep word b ec mask) b)
    none
  match best with
  | some (ec, mask, d) => if d ≤ 3 then some (ec, mask, d) else none
  | none => none

/-- FORMAT_READ_PATHS_V1 from qr/format.rs: the two hard-coded 15-coordinate
read paths, transcribed verbatim ((x, y) pairs). -/
def FORMAT_READ_PATHS_V1 : List (List (Nat × Nat)) :=
  [ [ (0, 8), (1, 8), (2, 8), (3, 8), (4, 8), (5, 8),
      (7, 8), (8, 8),
      (8, 7), (8, 6), (8, 5), (8, 4), (8, 3), (8, 2), (8, 1) ],
    [ (20, 0), (20, 1), (20, 2), (20, 3), (20, 4), (20, 5), (20, 6), (20, 7),
      (19, 8), (18, 8), (17, 8), (16, 8), (15, 8), (14, 8), (13, 8) ] ]

/-- Coordinate order in which synthesize_qr_v1_from_text (qr/encode.rs)
writes format copy A: x = 0..=8 skipping 6 on row y=8, then y = 8 down to 0
skipping 8 and 6 on column x=8 (bits emitted MSB first along this order). -/
def enc_format_path_a : List (Nat × Nat) :=
  (((List.range 9).filter (fun x => x ≠ 6)).map (fun x => (x, 8))) ++
  (((List.range 9).reverse.filter (fun y => y ≠ 8 ∧ y ≠ 6)).map (fun y => (8, y)))

/-- Coordinate order in which synthesize_qr_v1_from_text writes format copy B:
x = 20 down to 13 on row y=8, then y = 20 down to 14 on column x=8. -/
def enc_format_path_b : List (Nat × Nat) :=
  ((List.range 8).map (fun k => (20 - k, 8))) ++
  ((List.range 7).map (fun k => (8, 20 - k)))

/-- Modelled from the spec: copy A of the format information per section 4.6
(row y=8 across x in {0..5,7,8}, then column x=8 down y in {7,5,4,3,2,1,0}). -/
def spec_format_path_a : List (Nat × Nat) :=
  [ (0, 8), (1, 8), (2, 8), (3, 8), (4, 8), (5, 8), (7, 8), (8, 8),
    (8, 7), (8, 5), (8, 4), (8, 3), (8, 2), (8, 1), (8, 0) ]

/-- Modelled from the spec: copy B of the format information per section 4.6
(column x=8 at y in {14..20}, then row y=8 at x in {13..20}). -/
def spec_format_path_b : List (Nat × Nat) :=
  ((List.range 7).map (fun k => (8, 14 + k))) ++
  ((List.range 8).map (fun k => (13 + k, 8)))

/-! ### qr/data.rs -/

/-- Grid size for version 1. -/
def N1 : Nat := 21

/-- is_function_v1 from qr/data.rs: finder+separator rectangles at three
corners, plus the timing row and column. -/
def is_function_v1 (x y : Nat) : Bool :=
  if (x ≤ 8 ∧ y ≤ 8) ∨ (N1 - 8 ≤ x ∧ y ≤ 8) ∨ (x ≤ 8 ∧ N1 - 8 ≤ y) then true
  else if x = 6 ∨ y = 6 then true
  else false

/-- One column pair (xx, xx-1) of walk_pairs_v1: snake over y, upward means
y = 20 down to 0, pushing (xx, y) then (xx-1, y) at each y. -/
def walk_pair_block (xx : Nat) (up : Bool) : List (Nat × Nat) :=
  if up then (List.range N1).reverse.flatMap (fun y => [(xx, y), (xx - 1, y)])
  else (List.range N1).flatMap (fun y => [(xx, y), (xx - 1, y)])

/-- The single final column x = 0 of walk_pairs_v1. -/
def walk_final_col (up : Bool) : List (Nat × Nat) :=
  if up then (List.range N1).reverse.map (fun y => (0, y))
  else (List.range N1).map (fun y => (0, y))

/-- The while loop of walk_pairs_v1: pairs (x, x-1) while x > 0, stepping
x by -2 and flipping the direction after every pair; a final single column
when x lands exactly on 0 (x is isize in Rust, so an odd start skips it). -/
def walk_cols : Nat → Bool → List (Nat × Nat)
  | 0, up => walk_final_col up
  | 1, up => walk_pair_block 1 up
  | x + 2, up => walk_pair_block (x + 2) up ++ walk_cols x (!up)

/-- walk_pairs_v1 from qr/data.rs: starts at x = 20 moving upward. -/
def walk_pairs_v1 : List (Nat × Nat) := walk_cols 20 true

/-- Loop body of extract_data_bits_v1: skip function modules, push the grid
bit otherwise, stop once 208 bits are collected (the Rust loop pushes and
then breaks at length 208, which yields the same list as this cap). -/
def extract_go (g : Nat → Bool) : Nat → List (Nat × Nat) → List Bool
  | _, [] => []
  | 0, _ :: _ => []
  | n + 1, (x, y) :: rest =>
    if is_function_v1 x y then extract_go g (n + 1) rest
    else g (y * N1 + x) :: extract_go g n rest

/-- extract_data_bits_v1 from qr/data.rs; the grid is modelled as a total
function on indices (the Rust slice has length 441 and every index read is
y*21+x with x, y < 21). -/
def extract_data_bits_v1 (g : Nat → Bool) : List Bool :=
  extract_go g 208 walk_pairs_v1

/-! ### qr/rs.rs -/

/-- Field addition in GF(256) is XOR (gf_add). -/
def gf_add (a b : Nat) : Nat := a ^^^ b

/-- Loop body of gf_mul: peasant multiplication with reduction by 0x11D.
The Rust loop runs while bb is nonzero; bb is a u8 promoted to u16, so at
most 8 halvings empty it and fuel 8 reproduces the loop exactly.  As in the
Rust code, aa is masked to 8 bits before the conditional XOR with 0x11D, so
aa may carry a stray bit 8 that the res accumulation (res ^= aa as u8)
strips again. -/
def gfMulGo : Nat → Nat → Nat → Nat → Nat
  | 0, _, _, res => res
  | fuel + 1, aa, bb, res =>
    if bb = 0 then res
    else
      let res2 := if bb &&& 1 ≠ 0 then res ^^^ (aa &&& 0xFF) else res
      let aa2 := (aa <<< 1) &&& 0xFF
      let aa3 := if aa &&& 0x80 ≠ 0 then aa2 ^^^ 0x11D else aa2
      gfMulGo fuel aa3 (bb >>> 1) res2

/-- gf_mul from qr/rs.rs (u8 arguments). -/
def gf_mul (a b : Nat) : Nat := gfMulGo 8 a b 0

/-- Loop body of gf_pow: square-and-multiply; the exponent is below 255
after reduction, so fuel 8 covers every iteration of the Rust loop. -/
def gfPowGo : Nat → Nat → Nat → Nat → Nat
  | 0, _, _, acc => acc
  | fuel + 1, base, e, acc =>
    if e = 0 then acc
    else
      let acc2 := if e &&& 1 ≠ 0 then gf_mul acc base else acc
      gfPowGo fuel (gf_mul base base) (e >>> 1) acc2

/-- gf_pow from qr/rs.rs; the i32 exponent reduction (e %= 255 followed by
a conditional + 255) is exactly the Int emod. -/
def gf_pow (a : Nat) (e : Int) : Nat :=
  if e = 0 then 1
  else if a = 0 then 0
  else gfPowGo 8 a (e % 255).toNat 1

/-- gf_inv from qr/rs.rs: a^254. -/
def gf_inv (a : Nat) : Nat := gf_pow a 254

/-- Inner update of the generator_poly loop: given the previous coefficient
of g (initially g[0]) and the remaining coefficients, produce the
coefficients of ng from index 1 on (ng[j] = g[j-1] xor gf_mul g[j] a, and a
final ng[len] = g[len-1]).  Coefficients are in ascending order, matching
the Rust construction. -/
def stepMulAux (a : Nat) : Nat → List Nat → List Nat
  | prev, [] => [prev]
  | prev, gj :: rest => (prev ^^^ gf_mul gj a) :: stepMulAux a gj rest

/-- One iteration of the generator_poly loop: multiply g by (x + a). -/
def stepMul (g : List Nat) (a : Nat) : List Nat :=
  match g with
  | [] => [0]
  | g0 :: gs => gf_mul g0 a :: stepMulAux a g0 gs

/-- generator_poly from qr/rs.rs: g(x) accumulated over i = 0..ec_len-1
with root gf_pow 2 i each step; ascending coefficient order. -/
def generator_poly (ec_len : Nat) : List Nat :=
  (List.range ec_len).foldl (fun g (i : Nat) => stepMul g (gf_pow 2 (i : Int))) [1]

/-- Inner sum of compute_syndromes: acc xor gf_mul cw[i] (a_k ^ (n-1-i))
over i = 0..n-1, accumulated left to right. -/
def syndromeSum (cw : List Nat) (a_k : Nat) : Nat :=
  (List.range cw.length).foldl
    (fun acc i => gf_add acc (gf_mul (cw.getD i 0) (gf_pow a_k ((cw.length - 1 - i : Nat) : Int))))
    0

/-- compute_syndromes from qr/rs.rs: S_k = C(alpha^k) for k = 0..ec_len-1. -/
def compute_syndromes (cw : List Nat) (ec_len : Nat) : List Nat :=
  (List.range ec_len).map (fun (k : Nat) => syndromeSum cw (gf_pow 2 (k : Int)))

/-- poly_scale from qr/rs.rs. -/
def poly_scale (p : List Nat) (s : Nat) : List Nat :=
  if s = 0 then [0] else p.map (fun c => gf_mul c s)

/-- trim_leading_zeros from qr/rs.rs: drop zeros from the front while more
than one coefficient remains. -/
def trim_leading_zeros : List Nat → List Nat
  | [] => []
  | [c] => [c]
  | c :: d :: rest => if c = 0 then trim_leading_zeros (d :: rest) else c :: d :: rest

/-- poly_add from qr/rs.rs: tail-aligned XOR of the two coefficient vectors
(the shorter one is padded at the front), then trimmed. -/
def poly_add (a b : List Nat) : List Nat :=
  let n := max a.length b.length
  trim_leading_zeros ((List.range n).map (fun i =>
    (if n ≤ i + a.length then a.getD (i + a.length - n) 0 else 0) ^^^
    (if n ≤ i + b.length then b.getD (i + b.length - n) 0 else 0)))

/-- poly_mul from qr/rs.rs: convolution accumulated by XOR, then trimmed.
The Rust code skips zero coefficients; XOR-ing gf_mul results that are zero
is the identity, so the skip is unobservable and omitted here. -/
def poly_mul (a b : List Nat) : List Nat :=
  trim_leading_zeros ((List.range (a.length + b.length - 1)).map (fun k =>
    (List.range a.length).foldl (fun acc i =>
      if i ≤ k ∧ k - i < b.length then acc ^^^ gf_mul (a.getD i 0) (b.getD (k - i) 0)
      else acc) 0))

/-- poly_derivative from qr/rs.rs: keep the coefficients whose power is odd
(formal derivative in characteristic 2), then trim. -/
def poly_derivative (p : List Nat) : List Nat :=
  if p.length ≤ 1 then [0]
  else
    trim_leading_zeros ((List.range (p.length - 1)).filterMap (fun i =>
      if (p.length - 1 - i) % 2 = 1 then some (p.getD i 0) else none))

/-- poly_eval from qr/rs.rs: Horner evaluation over the coefficient list. -/
def poly_eval (p : List Nat) (x : Nat) : Nat :=
  p.foldl (fun y c => gf_add (gf_mul y x) c) 0

/-- Discrepancy computation inside berlekamp_massey: delta = S_n xor
sum over i = 1..L of c[i] * S_{n-i}.  The access c[i] uses Vec indexing in
Rust and panics when i is out of bounds, which is modelled by None.  (The
synd access is always in bounds because l is at most n at this point.) -/
def bmDelta (c synd : List Nat) (n l : Nat) : Option Nat :=
  (List.range l).foldl
    (fun acc j => do
      let delta ← acc
      let ci ← c.get? (j + 1)
      pure (gf_add delta (gf_mul ci (synd.getD (n - (j + 1)) 0))))
    (some (synd.getD n 0))

/-- One iteration of the berlekamp_massey main loop over the state
(c, b, l, m). -/
def bmStep (synd : List Nat) (st : List Nat × List Nat × Nat × Nat) (n : Nat) :
    Option (List Nat × List Nat × Nat × Nat) := do
  let (c, b, l, m) := st
  let delta ← bmDelta c synd n l
  if delta ≠ 0 then
    let t := c
    let c2 := poly_add c (List.replicate m 0 ++ poly_scale b delta)
    if 2 * l ≤ n then
      pure (c2, poly_scale t (gf_inv delta), n + 1 - l, 1)
    else
      pure (c2, b, l, m + 1)
  else
    pure (c, b, l, m + 1)

/-- berlekamp_massey from qr/rs.rs: returns (sigma, omega), or None when the
Rust code panics on an out-of-bounds c[i] access. -/
def berlekamp_massey (synd : List Nat) : Option (List Nat × List Nat) := do
  let st ← (List.range synd.length).foldlM (bmStep synd) ([1], [1], 0, 1)
  let (c, _, l, _) := st
  let omega0 := poly_mul c synd
  let omega1 := if l < omega0.length then omega0.drop (omega0.length - l) else omega0
  pure (c, trim_leading_zeros omega1)

/-- chien_search from qr/rs.rs: positions j with sigma(alpha^(-j)) = 0. -/
def chien_search (sigma : List Nat) (n : Nat) : List Nat :=
  (List.range n).filter (fun j =>
    poly_eval sigma (gf_inv (gf_pow 2 ((j : Int) % 255))) == 0)

/-- forney_error_magnitude from qr/rs.rs. -/
def forney_error_magnitude (omega sigma : List Nat) (x : Nat) : Nat :=
  let x_inv := gf_inv x
  let num := poly_eval omega x_inv
  let den := poly_eval (poly_derivative sigma) x_inv
  if den = 0 then 0 else gf_mul num (gf_inv den)

/-- Result of rs_correct_codeword_block: crash models a Rust panic, fail is
Err(()), ok carries the corrected count and the mutated block. -/
inductive RsOutcome
  | crash
  | fail
  | ok (corrected : Nat) (cw : List Nat)
deriving DecidableEq

/-- Correction loop of rs_correct_codeword_block: apply the Forney
magnitude at each error position, counting the bytes that changed. -/
def rsApplyAll (n : Nat) (omega sigma : List Nat) :
    List Nat → List Nat → Nat → List Nat × Nat
  | [], cw, corrected => (cw, corrected)
  | pos :: rest, cw, corrected =>
    let x := gf_pow 2 ((255 - (pos : Int)) % 255)
    let err_mag := forney_error_magnitude omega sigma x
    let idx := n - 1 - pos
    let before := cw.getD idx 0
    let after := before ^^^ err_mag
    rsApplyAll n omega sigma rest (cw.set idx after)
      (if after ≠ before then corrected + 1 else corrected)

/-- rs_correct_codeword_block from qr/rs.rs. -/
def rs_correct_codeword_block (cw : List Nat) (data_len ec_len : Nat) : RsOutcome :=
  let n := data_len + ec_len
  if cw.length ≠ n ∨ ec_len = 0 then RsOutcome.fail
  else
    let synd := compute_syndromes cw ec_len
    if synd.all (fun s => s == 0) then RsOutcome.ok 0 cw
    else
      match berlekamp_massey synd with
      | none => RsOutcome.crash
      | some (sigma, omega) =>
        let err_pos := chien_search sigma n
        if err_pos.isEmpty then RsOutcome.fail
        else if ec_len < err_pos.length then RsOutcome.fail
        else
          let res := rsApplyAll n omega sigma err_pos cw 0
          if (compute_syndromes res.1 ec_len).any (fun s => s != 0) then RsOutcome.fail
          else RsOutcome.ok res.2 res.1

/-- Pointwise XOR of ascending coefficient vectors aligned at the constant
term (reference-style polynomial sum, used by the specification-side
product below). -/
def polyAddAsc : List Nat → List Nat → List Nat
  | [], b => b
  | a :: as1, [] => a :: as1
  | a :: as1, b :: bs => (a ^^^ b) :: polyAddAsc as1 bs

/-- Reference polynomial product in ascending coefficient order (standard
convolution). -/
def poly_mul_asc : List Nat → List Nat → List Nat
  | [], _ => []
  | p0 :: ps, q => polyAddAsc (q.map (fun qi => gf_mul p0 qi)) (0 :: poly_mul_asc ps q)

/-- Modelled from the spec: the product g(x) of the linear factors
(x + alpha^(first+i)) for i = 0..t-1, in ascending coefficient order.
With first = 1 this is the narrow-sense generator of section 4.8; with
first = 0 it is the product the code actually builds. -/
def spec_gen_roots (first t : Nat) : List Nat :=
  (List.range t).foldl
    (fun g i => poly_mul_asc g [gf_pow 2 ((first + i : Nat) : Int), 1]) [1]

/-- Helper for the spec-side codeword evaluation: sum of
gf_mul l[j] (e^(j0+j)) over the list l, XOR-accumulated right to left. -/
def revPowSumGo (e : Nat) : List Nat → Nat → Nat
  | [], _ => 0
  | c :: cs, j => gf_add (gf_mul c (gf_pow e (j : Int))) (revPowSumGo e cs (j + 1))

/-- Modelled from the spec: C(e) where C(x) = sum of c_i x^(n-1-i)
(section 4.8, step 1), computed over the reversed codeword so that the
i-th list entry is paired with exponent n-1-i. -/
def spec_poly_eval_at (cw : List Nat) (e : Nat) : Nat :=
  revPowSumGo e cw.reverse 0

/-- Modelled from the spec: syndromes S_k = C(alpha^(first+k)) for
k = 0..t-1.  With first = 1 these are the narrow-sense syndromes
S_1..S_t of section 4.8; with first = 0 they are what the code computes. -/
def spec_syndromes (first : Nat) (cw : List Nat) (t : Nat) : List Nat :=
  (List.range t).map (fun k => spec_poly_eval_at cw (gf_pow 2 ((first + k : Nat) : Int)))

/-! ### qr/sample.rs -/

/-- is_dark from qr/sample.rs: a fixed luminance threshold of 128. -/
def is_dark (v : Nat) : Bool := v < 128

/-- Final stage of get_bit_with inside sample_qr_v1_grid: the nine
supersample luminances of one module are summed into a u32, divided by 9,
and thresholded with is_dark.  The geometric part that produces those nine
luminances (homography, bilinear interpolation, auto-calibration) is
floating point and is modelled as the given per-module sample list. -/
def module_bit (samples : List Nat) : Bool :=
  is_dark (samples.foldl (· + ·) 0 / 9)

/-- Grid assembly of sample_qr_v1_grid: out[y*21+x] = module bit of (x,y),
row-major, parameterized by the per-module supersample luminances. -/
def qr_sample_grid (lum9 : Nat → Nat → List Nat) : List Bool :=
  (List.range (N1 * N1)).map (fun i => module_bit (lum9 (i % N1) (i / N1)))

/-- Modelled from the spec: binarization at the grid stage thresholded at
the mean luminance of all 441 sampled module centers, dark iff the module
center luminance is below that mean (sections 4.5 and the C4 sources). -/
def spec_mean_grid (lum : Nat → Nat → Nat) : List Bool :=
  let total := (List.range (N1 * N1)).foldl (fun acc i => acc + lum (i % N1) (i / N1)) 0
  let mean := total / (N1 * N1)
  (List.range (N1 * N1)).map (fun i => decide (lum (i % N1) (i / N1) < mean))

/-- Example sampled luminances: module (0,0) reads 140 on all nine
supersamples, every other module reads 255. -/
def exLum9 : Nat → Nat → List Nat := fun x y =>
  if x = 0 ∧ y = 0 then List.replicate 9 140 else List.replicate 9 255

/-- Center luminances matching exLum9. -/
def exCenter : Nat → Nat → Nat := fun x y => if x = 0 ∧ y = 0 then 140 else 255

/-- A second sample assignment agreeing with exLum9 at (0,0) only. -/
def exLum9b : Nat → Nat → List Nat := fun x y =>
  if x = 0 ∧ y = 0 then List.replicate 9 140 else List.replicate 9 10

/-! ### binarize.rs -/

/-- otsu_like_threshold from binarize.rs: (mean + (min+max)/2) / 2, single
pass for min, max and sum; 0 for an empty row.  Pixels are u8 so none of
the integer casts truncate. -/
def otsu_like_threshold (row : List Nat) : Nat :=
  if row = [] then 0
  else
    let min_v := row.foldl (fun m v => if v < m then v else m) 255
    let max_v := row.foldl (fun m v => if m < v then v else m) 0
    let sum := row.foldl (· + ·) 0
    ((sum / row.length) + (min_v + max_v) / 2) / 2

/-- binarize_row from binarize.rs: global threshold, dark iff v < t. -/
def binarize_row (row : List Nat) : List Bool :=
  let t := otsu_like_threshold row
  row.map (fun v => decide (v < t))

/-- binarize_row_adaptive from binarize.rs: sliding-window mean via prefix
sums, window radius clamp(n/32, 8, 64), bias 5; the comparison is i32 so
the mean minus bias may go negative. -/
def binarize_row_adaptive (row : List Nat) : List Bool :=
  let n := row.length
  if n = 0 then []
  else
    let win := min (max (n / 32) 8) 64
    let psums := row.scanl (· + ·) 0
    (List.range n).map (fun i =>
      let left := i - win
      let right := min (i + win) (n - 1)
      let len := right - left + 1
      let sum := psums.getD (right + 1) 0 - psums.getD left 0
      decide ((row.getD i 0 : Int) < (sum / len : Nat) - 5))

/-- Loop of runs: extend the current run or emit it and restart. -/
def runsGo : Bool → Nat → List Bool → List Nat
  | _, len, [] => [len]
  | cur, len, b :: rest =>
    if b = cur then runsGo cur (len + 1) rest else len :: runsGo b 1 rest

/-- runs from binarize.rs: run lengths of maximal same-color segments. -/
def runs (row_bin : List Bool) : List Nat :=
  match row_bin with
  | [] => []
  | b :: rest => runsGo b 1 rest

/-- Insertion step used to model sort_unstable (ascending). -/
def insertSorted (x : Nat) : List Nat → List Nat
  | [] => [x]
  | y :: ys => if x ≤ y then x :: y :: ys else y :: insertSorted x ys

/-- The sorted ascending copy created by sort_unstable in
normalize_modules (for Nat keys the unstable sort result is the unique
ascending ordering, which insertion sort also produces). -/
def sortAsc (l : List Nat) : List Nat := l.foldr insertSorted []

/-- normalize_modules from binarize.rs.  The f32 base module (a median,
hence an integer or half integer) is carried as base2 = 2*base, and the
f32 (w / base).round() (round half away from zero on positive values) is
the exact (4*w + base2) / (2*base2) in integer division; the f32 result
agrees with the exact one for the magnitudes that occur (see the header
note). -/
def normalize_modules (row_bin : List Bool) (rl : List Nat) : List Nat × Bool :=
  if rl = [] then ([], false)
  else
    let sorted := sortAsc rl
    let thin := sorted.take ((max sorted.length 1 + 1) / 2)
    let mid := thin.length / 2
    let base2 :=
      if thin = [] then 2
      else if thin.length % 2 = 1 then 2 * thin.getD mid 0
      else thin.getD (mid - 1) 0 + thin.getD mid 0
    let base2 := max base2 2
    let mods := rl.map (fun w => min (max ((4 * w + base2) / (2 * base2)) 1) 4)
    (mods, row_bin.headD false)

/-! ### one_d/ean13.rs -/

/-- A_PATTERNS from one_d/ean13.rs. -/
def A_PATTERNS : List (Nat × Nat × Nat × Nat) :=
  [ (3, 2, 1, 1), (2, 2, 2, 1), (2, 1, 2, 2), (1, 4, 1, 1), (1, 1, 3, 2),
    (1, 2, 3, 1), (1, 1, 1, 4), (1, 3, 1, 2), (1, 2, 1, 3), (3, 1, 1, 2) ]

/-- B_PATTERNS from one_d/ean13.rs (reverse of A). -/
def B_PATTERNS : List (Nat × Nat × Nat × Nat) :=
  [ (1, 1, 2, 3), (1, 2, 2, 2), (2, 2, 1, 2), (1, 1, 4, 1), (2, 3, 1, 1),
    (1, 3, 2, 1), (4, 1, 1, 1), (2, 1, 3, 1), (3, 1, 2, 1), (2, 1, 1, 3) ]

/-- C_PATTERNS from one_d/ean13.rs: identical to A_PATTERNS. -/
def C_PATTERNS : List (Nat × Nat × Nat × Nat) := A_PATTERNS

/-- FIRST_DIGIT_MASKS from one_d/ean13.rs (true = B). -/
def FIRST_DIGIT_MASKS : List (Bool × Bool × Bool × Bool × Bool × Bool) :=
  [ (false, false, false, false, false, false),
    (false, false, true, false, true, true),
    (false, false, true, true, false, true),
    (false, false, true, true, true, false),
    (false, true, false, false, true, true),
    (false, true, true, false, false, true),
    (false, true, true, true, false, false),
    (false, true, false, true, false, true),
    (false, true, false, true, true, false),
    (false, true, true, false, true, false) ]

/-- patdist from one_d/ean13.rs: Manhattan distance of 4-run patterns
(i32 differences, absolute values summed). -/
def patdist (p q : Nat × Nat × Nat × Nat) : Nat :=
  ((p.1 : Int) - q.1).natAbs + ((p.2.1 : Int) - q.2.1).natAbs +
  ((p.2.2.1 : Int) - q.2.2.1).natAbs + ((p.2.2.2 : Int) - q.2.2.2).natAbs

/-- best_match from one_d/ean13.rs: first index of strictly smallest
distance; the running best starts at (0, u32::MAX). -/
def best_match (pat : Nat × Nat × Nat × Nat)
    (dict : List (Nat × Nat × Nat × Nat)) : Nat × Nat :=
  let res := dict.foldl
    (fun (st : Nat × Nat × Nat) q =>
      let d := patdist pat q
      if d < st.2.2 then (st.1 + 1, st.1, d) else (st.1 + 1, st.2.1, st.2.2))
    (0, 0, 4294967295)
  (res.2.1, res.2.2)

/-- find_guard_start from one_d/ean13.rs: first index with three
consecutive module widths equal to 1. -/
def find_guard_start_go (i : Nat) : List Nat → Option Nat
  | a :: b :: c :: rest =>
    if a = 1 ∧ b = 1 ∧ c = 1 then some i
    else find_guard_start_go (i + 1) (b :: c :: rest)
  | _ => none

/-- find_guard_start entry point. -/
def find_guard_start (m : List Nat) : Option Nat := find_guard_start_go 0 m

/-- is_guard_center from one_d/ean13.rs: five consecutive 1 widths. -/
def is_guard_center (m : List Nat) (i : Nat) : Bool :=
  decide (i + 4 < m.length) && (m.getD i 0 == 1) && (m.getD (i + 1) 0 == 1) &&
    (m.getD (i + 2) 0 == 1) && (m.getD (i + 3) 0 == 1) && (m.getD (i + 4) 0 == 1)

/-- is_guard_end from one_d/ean13.rs: three consecutive 1 widths. -/
def is_guard_end (m : List Nat) (i : Nat) : Bool :=
  decide (i + 2 < m.length) && (m.getD i 0 == 1) && (m.getD (i + 1) 0 == 1) &&
    (m.getD (i + 2) 0 == 1)

/-- Left-half digit loop of decode_row: read count digits of 4 modules
each starting at idx (the Rust loop advances idx by 4 per digit), choosing
between the A and B pattern sets by smaller distance; None on the bound
check idx + 3 >= len. -/
def readLeftDigits (mods : List Nat) : Nat → Nat → Option (List (Nat × Bool))
  | 0, _ => some []
  | d + 1, idx =>
    if mods.length ≤ idx + 3 then none
    else
      let pat := (mods.getD idx 0, mods.getD (idx + 1) 0,
                  mods.getD (idx + 2) 0, mods.getD (idx + 3) 0)
      let ra := best_match pat A_PATTERNS
      let rb := best_match pat B_PATTERNS
      let entry := if ra.2 ≤ rb.2 then (ra.1, false) else (rb.1, true)
      (readLeftDigits mods d (idx + 4)).map (fun rest => entry :: rest)

/-- Right-half digit loop of decode_row: C patterns only; the best-match
distance is computed and discarded, exactly as in the Rust code. -/
def readRightDigits (mods : List Nat) : Nat → Nat → Option (List Nat)
  | 0, _ => some []
  | d + 1, idx =>
    if mods.length ≤ idx + 3 then none
    else
      let pat := (mods.getD idx 0, mods.getD (idx + 1) 0,
                  mods.getD (idx + 2) 0, mods.getD (idx + 3) 0)
      let rc := best_match pat C_PATTERNS
      (readRightDigits mods d (idx + 4)).map (fun rest => rc.1 :: rest)

/-- deduce_first_digit from one_d/ean13.rs: lookup of the A/B type mask. -/
def deduce_first_digit (mask_b : List Bool) : Option Nat :=
  (FIRST_DIGIT_MASKS.foldl
    (fun (st : Nat × Option Nat) mask =>
      match st.2 with
      | some d => (st.1 + 1, some d)
      | none =>
        if mask_b.getD 0 false = mask.1 ∧ mask_b.getD 1 false = mask.2.1 ∧
           mask_b.getD 2 false = mask.2.2.1 ∧ mask_b.getD 3 false = mask.2.2.2.1 ∧
           mask_b.getD 4 false = mask.2.2.2.2.1 ∧ mask_b.getD 5 false = mask.2.2.2.2.2
        then (st.1 + 1, some st.1) else (st.1 + 1, none))
    (0, none)).2

/-- check_ean13_checksum from one_d/ean13.rs. -/
def check_ean13_checksum (d : List Nat) : Bool :=
  let sum := (List.range 12).foldl
    (fun acc i => acc + d.getD i 0 * (if i % 2 = 0 then 1 else 3)) 0
  (10 - sum % 10) % 10 == d.getD 12 0

/-- Digit rendering of decode_row: a leading zero yields the 12-character
UPC-A text, otherwise all 13 digits. -/
def renderEan (digits : List Nat) : String :=
  let ds := if digits.getD 0 0 = 0 then digits.drop 1 else digits
  String.mk (ds.map (fun k => Char.ofNat (48 + k)))

/-- Guard/digit/checksum part of decode_row (steps 2-8), operating on the
quantized module stream. -/
def ean13_decode_modules (mods : List Nat) : Option String :=
  match find_guard_start mods with
  | none => none
  | some i =>
    match readLeftDigits mods 6 (i + 3) with
    | none => none
    | some left =>
      if is_guard_center mods (i + 27) then
        match readRightDigits mods 6 (i + 32) with
        | none => none
        | some right =>
          if is_guard_end mods (i + 56) then
            match deduce_first_digit (left.map (fun e => e.2)) with
            | none => none
            | some first =>
              let digits := first :: (left.map (fun e => e.1) ++ right)
              if check_ean13_checksum digits then some (renderEan digits)
              else none
          else none
      else none

/-- DecodeOptions from one_d/mod.rs. -/
structure DecodeOptions where
  scan_rows : Nat
  min_modules : Nat
deriving DecidableEq

/-- The Default instance of DecodeOptions: 15 scan rows, min_modules 30. -/
def DecodeOptions.default : DecodeOptions :=
  { scan_rows := 15, min_modules := 30 }

/-- decode_row from one_d/ean13.rs: length gate, adaptive binarization
with global fallback (each requiring at least 40 runs), then the module
stream decode. -/
def ean13_decode_row (row : List Nat) (opts : DecodeOptions) : Option String :=
  if row.length < opts.min_modules then none
  else
    let rb := binarize_row_adaptive row
    let rl := runs rb
    let mm :=
      if 40 ≤ rl.length then some (normalize_modules rb rl)
      else
        let rb2 := binarize_row row
        let rl2 := runs rb2
        if rl2.length < 40 then none else some (normalize_modules rb2 rl2)
    match mm with
    | none => none
    | some mods => ean13_decode_modules mods.1

/-- The quantized module stream decode_row derives from a pixel row
(steps 1 of decode_row: adaptive binarization, fallback to the global
threshold, each requiring at least 40 runs); this is exactly the stream
on which ean13_decode_modules then runs. -/
def ean13_modules_of (row : List Nat) : Option (List Nat) :=
  let rb := binarize_row_adaptive row
  let rl := runs rb
  if 40 ≤ rl.length then some (normalize_modules rb rl).1
  else
    let rb2 := binarize_row row
    let rl2 := runs rb2
    if rl2.length < 40 then none else some (normalize_modules rb2 rl2).1

/-- Pixel renderer shared by the test synthesizers: module widths times
unit pixels, starting with white (255), alternating to black (0). -/
def barsToPixels (unit : Nat) : Bool → List Nat → List Nat
  | _, [] => []
  | black, m :: rest =>
    List.replicate (m * unit) (if black then 0 else 255) ++
      barsToPixels unit (!black) rest

/-- Module stream of the all-zero EAN-13 (quiet 9, start guard, six A
patterns of digit 0, center guard, six C patterns of digit 0, end guard,
quiet 9), mirroring synthesize_ideal_row for digits 0000000000000. -/
def c6_clean_modules : List Nat :=
  [9, 1, 1, 1] ++
  (List.replicate 6 [3, 2, 1, 1]).flatten ++
  [1, 1, 1, 1, 1] ++
  (List.replicate 6 [3, 2, 1, 1]).flatten ++
  [1, 1, 1, 9]

/-- Same stream with the first right-half digit pattern replaced by
(4,4,4,4), a pattern at Manhattan distance 9 (the maximum) from every
entry of the C table. -/
def c6_corrupt_modules : List Nat :=
  [9, 1, 1, 1] ++
  (List.replicate 6 [3, 2, 1, 1]).flatten ++
  [1, 1, 1, 1, 1] ++
  [4, 4, 4, 4] ++
  (List.replicate 5 [3, 2, 1, 1]).flatten ++
  [1, 1, 1, 9]

/-- Pixel row (unit 2) of the clean all-zero EAN-13. -/
def c6_clean_row : List Nat := barsToPixels 2 false c6_clean_modules

/-- Pixel row (unit 2) of the corrupted all-zero EAN-13. -/
def c6_corrupt_row : List Nat := barsToPixels 2 false c6_corrupt_modules

/-! ### one_d/code128.rs -/

/-- CODE128_PATTERNS_STR from one_d/code128.rs: 106 six-digit pattern
strings (103..105 are Start A/B/C). -/
def CODE128_PATTERNS_STR : List String :=
  [ "212222", "222122", "222221", "121223", "121322", "131222", "122213", "122312", "132212",
    "221213", "221312", "231212", "112232", "122132", "122231", "113222", "123122", "123221",
    "223211", "221132", "221231", "213212", "223112", "312131", "311222", "321122", "321221",
    "312212", "322112", "322211", "212123", "212321", "232121", "111323", "131123", "131321",
    "112313", "132113", "132311", "211313", "231113", "231311", "112133", "112331", "132131",
    "113123", "113321", "133121", "313121", "211331", "231131", "213113", "213311", "213131",
    "311123", "311321", "331121", "312113", "312311", "332111", "314111", "221411", "431111",
    "111224", "111422", "121124", "121421", "141122", "141221", "112214", "112412", "122114",
    "122411", "142112", "142211", "241211", "221114", "413111", "241112", "134111", "111242",
    "121142", "121241", "114212", "124112", "124211", "411212", "421112", "421211", "212141",
    "214121", "412121", "111143", "111341", "131141", "114113", "114311", "411113", "411311",
    "113141", "114131", "311141", "411131", "211412", "211214",
    "211232" ]

/-- get_patterns from one_d/code128.rs: each pattern string parsed to its
six digit values (byte minus the 0 character). -/
def get_patterns : List (List Nat) :=
  CODE128_PATTERNS_STR.map (fun s => s.toList.map (fun c => c.toNat - 48))

/-- CODE128_STOP from one_d/code128.rs. -/
def CODE128_STOP : List Nat := [2, 3, 3, 1, 1, 1, 2]

/-- Character sets of Code 128. -/
inductive CodeSet
  | A
  | B
  | C
deriving DecidableEq

/-- Index selected by v.iter().enumerate().rev().max_by_key(..): Rust
max_by_key keeps the last maximum in iteration order, and the iteration is
reversed, so ties resolve to the smallest index. -/
def maxIdxRev (v : List Nat) : Option Nat :=
  ((List.range v.length).reverse.foldl
    (fun (st : Option (Nat × Nat)) i =>
      match st with
      | none => some (i, v.getD i 0)
      | some (bi, bv) =>
        if bv ≤ v.getD i 0 then some (i, v.getD i 0) else some (bi, bv))
    none).map (fun st => st.1)

/-- Index selected by v.iter().enumerate().min_by_key(..): Rust min_by_key
keeps the first minimum in iteration order. -/
def minIdxFwd (v : List Nat) : Option Nat :=
  ((List.range v.length).foldl
    (fun (st : Option (Nat × Nat)) i =>
      match st with
      | none => some (i, v.getD i 0)
      | some (bi, bv) =>
        if v.getD i 0 < bv then some (i, v.getD i 0) else some (bi, bv))
    none).map (fun st => st.1)

/-- The while loop shared by adjust_sum_to and adjust_sum_to7: move the sum
toward the target one unit at a time (decrement the largest entry above 1,
or increment the smallest entry below 4), stopping at the target or when no
entry can move.  Each non-breaking iteration moves the sum by exactly 1
toward the target, so iterations never exceed |sum - target|; fuel 32
dominates that for the clamped 6- and 7-entry slices this is called on. -/
def adjustGo (target : Nat) : Nat → List Nat → List Nat
  | 0, v => v
  | fuel + 1, v =>
    let sum := v.foldl (· + ·) 0
    if sum = target then v
    else if target < sum then
      match maxIdxRev v with
      | none => v
      | some i =>
        if 1 < v.getD i 0 then adjustGo target fuel (v.set i (v.getD i 0 - 1)) else v
    else
      match minIdxFwd v with
      | none => v
      | some i =>
        if v.getD i 0 < 4 then adjustGo target fuel (v.set i (v.getD i 0 + 1)) else v

/-- normalize6 from one_d/code128.rs: each width w maps to
clamp(round(w / (sum/11)), 1, 4); the f32 round-half-away is the exact
(22w + s) / (2s) here (header note), then the sum is adjusted to 11. -/
def normalize6 (slice : List Nat) : List Nat :=
  let s := slice.foldl (· + ·) 0
  adjustGo 11 32 (slice.map (fun w => min (max ((22 * w + s) / (2 * s)) 1) 4))

/-- normalize7 from one_d/code128.rs: same with target sum 13. -/
def normalize7 (slice : List Nat) : List Nat :=
  let s := slice.foldl (· + ·) 0
  adjustGo 13 32 (slice.map (fun w => min (max ((26 * w + s) / (2 * s)) 1) 4))

/-- patdist6/patdist7 from one_d/code128.rs: Manhattan distance over the
zipped entries (i32 differences). -/
def patdistL (p q : List Nat) : Nat :=
  (p.zip q).foldl (fun acc e => acc + ((e.1 : Int) - e.2).natAbs) 0

/-- best_code_match from one_d/code128.rs: first index of strictly
smallest distance (the early break at distance 0 cannot change the
result because later updates require a strictly smaller distance). -/
def best_code_match (pat : List Nat) (patterns : List (List Nat)) : Nat × Nat :=
  let res := patterns.foldl
    (fun (st : Nat × Nat × Nat) q =>
      let d := patdistL pat q
      if d < st.2.2 then (st.1 + 1, st.1, d) else (st.1 + 1, st.2.1, st.2.2))
    (0, 0, 4294967295)
  (res.2.1, res.2.2)

/-- STOP scan of decode_row: first window of 7 runs whose normalization is
within Manhattan distance 1 of the canonical STOP.  The count argument is
rl.len() - 7 + 1 windows (the Rust loop bound 0..=len-7); decode_row only
calls this with at least 24 runs. -/
def findStopGo (rl : List Nat) : Nat → Nat → Option Nat
  | _, 0 => none
  | i, c + 1 =>
    if patdistL (normalize7 ((rl.drop i).take 7)) CODE128_STOP ≤ 1 then some i
    else findStopGo rl (i + 1) c

/-- STOP scan entry point. -/
def findStop (rl : List Nat) : Option Nat :=
  findStopGo rl 0 (rl.length - 7 + 1)

/-- Start code to character set (103/104/105). -/
def codeSetOf (v : Nat) : CodeSet :=
  if v = 103 then CodeSet.A else if v = 104 then CodeSet.B else CodeSet.C

/-- Backward walk of decode_row: from the STOP position, read 6-run
symbols right to left until a start code appears; None on a distance
above 1, a value above 105, or running out of runs before a start code.
The caller passes fuel = rl.len(), which dominates the iteration count
because idx shrinks by 6 each step. -/
def walkBack (rl : List Nat) (patterns : List (List Nat)) :
    Nat → Nat → List Nat → Option (CodeSet × List Nat)
  | 0, _, _ => none
  | fuel + 1, idx, acc =>
    let vd := best_code_match (normalize6 ((rl.drop (idx - 6)).take 6)) patterns
    if 1 < vd.2 ∨ 105 < vd.1 then none
    else if 103 ≤ vd.1 then some (codeSetOf vd.1, acc)
    else
      if idx - 6 < 6 then none
      else walkBack rl patterns fuel (idx - 6) (acc ++ [vd.1])

/-- Start code value of a character set. -/
def startValue : CodeSet → Nat
  | CodeSet.A => 103
  | CodeSet.B => 104
  | CodeSet.C => 105

/-- Checksum check of decode_row: start value plus payload value times
position (1-based), u32 wrapping sum, must equal the trailing checksum
symbol mod 103. -/
def code128_checksum_ok (values : List Nat) (start : CodeSet) : Bool :=
  let n := values.length - 1
  let sum := (List.range n).foldl
    (fun acc i => (acc + values.getD i 0 * (i + 1)) % 4294967296) (startValue start)
  sum % 103 == values.getD n 0

/-- One-symbol lookahead shift state. -/
inductive NextShift
  | noShift
  | toA
  | toB
deriving DecidableEq

/-- decode_values_to_text loop from one_d/code128.rs, one symbol at a
time; emits characters, switches sets, and applies SHIFT to exactly one
following symbol. -/
def dvtGo : List Nat → CodeSet → NextShift → Option (List Char)
  | [], _, _ => some []
  | v :: rest, set, shift =>
    let eff :=
      match set, shift with
      | CodeSet.A, NextShift.toB => CodeSet.B
      | CodeSet.B, NextShift.toA => CodeSet.A
      | _, _ => set
    let step : Option (List Char × CodeSet) :=
      match eff with
      | CodeSet.A =>
        if v ≤ 95 then some ([Char.ofNat v], set)
        else if v = 96 ∨ v = 97 then some ([], set)
        else if v = 98 then some ([], set)
        else if v = 99 then some ([], CodeSet.C)
        else if v = 100 then some ([], CodeSet.B)
        else if v = 101 then some ([], set)
        else if v = 102 then some ([Char.ofNat 29], set)
        else none
      | CodeSet.B =>
        if v ≤ 95 then some ([Char.ofNat (v + 32)], set)
        else if v = 96 ∨ v = 97 then some ([], set)
        else if v = 98 then some ([], set)
        else if v = 99 then some ([], CodeSet.C)
        else if v = 100 then some ([], set)
        else if v = 101 then some ([], CodeSet.A)
        else if v = 102 then some ([Char.ofNat 29], set)
        else none
      | CodeSet.C =>
        if v = 99 then some ([], set)
        else if v ≤ 98 then some ([Char.ofNat (48 + v / 10), Char.ofNat (48 + v % 10)], set)
        else if v = 100 then some ([], CodeSet.B)
        else if v = 101 then some ([], CodeSet.A)
        else if v = 102 then some ([Char.ofNat 29], set)
        else none
    match step with
    | none => none
    | some (out, newSet) =>
      let newShift :=
        if shift ≠ NextShift.noShift then NextShift.noShift
        else if v = 98 then
          match newSet with
          | CodeSet.A => NextShift.toB
          | CodeSet.B => NextShift.toA
          | CodeSet.C => NextShift.noShift
        else shift
      (dvtGo rest newSet newShift).map (fun tail => out ++ tail)

/-- decode_values_to_text entry point. -/
def decode_values_to_text (vals : List Nat) (set : CodeSet) : Option String :=
  (dvtGo vals set NextShift.noShift).map String.mk

/-- decode_row from one_d/code128.rs. -/
def code128_decode_row (row : List Nat) (opts : DecodeOptions) : Option String :=
  if row.length < opts.min_modules then none
  else
    let rl1 := runs (binarize_row_adaptive row)
    let rlOpt :=
      if 24 ≤ rl1.length then some rl1
      else
        let rl2 := runs (binarize_row row)
        if rl2.length < 24 then none else some rl2
    match rlOpt with
    | none => none
    | some rl =>
      match findStop rl with
      | none => none
      | some stop_i =>
        if stop_i < 6 then none
        else
          match walkBack rl get_patterns rl.length stop_i [] with
          | none => none
          | some st =>
            if st.2 = [] then none
            else
              let values := st.2.reverse
              if code128_checksum_ok values st.1 then
                decode_values_to_text (values.take (values.length - 1)) st.1
              else none

/-- Set C payload packing of synthesize_row_code128: two decimal digits
per symbol (the Rust code asserts an even digit count; the valid domain
makes the assert pass, an odd trailing digit is unreachable there). -/
def digitPairs : List Char → List Nat
  | a :: b :: rest => ((a.toNat - 48) * 10 + (b.toNat - 48)) :: digitPairs rest
  | _ => []

/-- synthesize_row_code128 from one_d/code128.rs: start code, payload
codes for the chosen set, mod-103 checksum, STOP, quiet zones of 10
modules, rendered to pixels with the given unit (white first).  The
asserts on the text domain hold on every input used here. -/
def synthesize_row_code128 (text : String) (set : Char) (unit : Nat) : List Nat :=
  let set_cur :=
    if set = 'A' ∨ set = 'a' then CodeSet.A
    else if set = 'B' ∨ set = 'b' then CodeSet.B
    else if set = 'C' ∨ set = 'c' then CodeSet.C
    else CodeSet.B
  let payload : List Nat :=
    match set_cur with
    | CodeSet.A => text.toList.map (fun ch => ch.toNat)
    | CodeSet.B => text.toList.map (fun ch => ch.toNat - 32)
    | CodeSet.C => digitPairs text.toList
  let codes := startValue set_cur :: payload
  let check :=
    ((List.range codes.length).foldl
      (fun acc i => if i = 0 then acc + codes.getD 0 0 else acc + codes.getD i 0 * i) 0) % 103
  let codes2 := codes ++ [check]
  let modules :=
    [10] ++ codes2.flatMap (fun c => get_patterns.getD c []) ++ CODE128_STOP ++ [10]
  barsToPixels unit false modules

/-! ### core/types.rs and one_d/mod.rs -/

/-- GrayImage from core/types.rs: row-major 8-bit grayscale buffer. -/
structure GrayImage where
  data : List Nat
  width : Nat
  height : Nat
deriving DecidableEq

/-- BarcodeFormat from one_d/mod.rs. -/
inductive BarcodeFormat
  | EAN13
  | UPCA
  | Code128
  | QR
deriving DecidableEq

/-- Barcode from one_d/mod.rs. -/
structure Barcode where
  format : BarcodeFormat
  text : String
  row : Nat
deriving DecidableEq

/-- GrayImage::row from core/types.rs: data[y*width .. y*width+width];
None models the Rust slice panic when the range leaves the buffer. -/
def imageRow (img : GrayImage) (y : Nat) : Option (List Nat) :=
  if y * img.width + img.width ≤ img.data.length then
    some ((img.data.drop (y * img.width)).take img.width)
  else none

/-- One scan line of decode_ean13_upca: decode the row forward, on failure
reversed; a 12-character text is UPC-A, else EAN-13; None propagates a
row-slice panic. -/
def ean13ScanStep (img : GrayImage) (opts : DecodeOptions) (rows : Nat)
    (acc : Option (List Barcode)) (i : Nat) : Option (List Barcode) :=
  match acc with
  | none => none
  | some out =>
    let y := i * (img.height - 1) / max (rows - 1) 1
    match imageRow img y with
    | none => none
    | some row =>
      match ean13_decode_row row opts with
      | some text =>
        let fmt := if text.length = 12 then BarcodeFormat.UPCA else BarcodeFormat.EAN13
        some (out ++ [{ format := fmt, text := text, row := y }])
      | none =>
        match ean13_decode_row row.reverse opts with
        | some text =>
          let fmt := if text.length = 12 then BarcodeFormat.UPCA else BarcodeFormat.EAN13
          some (out ++ [{ format := fmt, text := text, row := y }])
        | none => some out

/-- decode_ean13_upca from one_d/mod.rs: scan rows = clamp(scan_rows, 1, H)
evenly spaced lines. -/
def decode_ean13_upca (img : GrayImage) (opts : DecodeOptions) : Option (List Barcode) :=
  let rows := min (max opts.scan_rows 1) img.height
  (List.range rows).foldl (ean13ScanStep img opts rows) (some [])

/-- One scan line of decode_code128 (forward then reversed). -/
def code128ScanStep (img : GrayImage) (opts : DecodeOptions) (rows : Nat)
    (acc : Option (List Barcode)) (i : Nat) : Option (List Barcode) :=
  match acc with
  | none => none
  | some out =>
    let y := i * (img.height - 1) / max (rows - 1) 1
    match imageRow img y with
    | none => none
    | some row =>
      match code128_decode_row row opts with
      | some text =>
        some (out ++ [{ format := BarcodeFormat.Code128, text := text, row := y }])
      | none =>
        match code128_decode_row row.reverse opts with
        | some text =>
          some (out ++ [{ format := BarcodeFormat.Code128, text := text, row := y }])
        | none => some out

/-- decode_code128 from one_d/mod.rs. -/
def decode_code128 (img : GrayImage) (opts : DecodeOptions) : Option (List Barcode) :=
  let rows := min (max opts.scan_rows 1) img.height
  (List.range rows).foldl (code128ScanStep img opts rows) (some [])

end Ultracode

open Ultracode

/-! ## Helper lemmas -/

/-- Length of the extraction loop output: capped count of non-function
coordinates along the path. -/
theorem extract_go_length (g : Nat → Bool) (l : List (Nat × Nat)) :
    ∀ n, (extract_go g n l).length =
      min n ((l.filter fun p => !(is_function_v1 p.1 p.2)).length) := by
  induction l with
  | nil => intro n; simp [extract_go]
  | cons hd tl ih =>
    intro n
    obtain ⟨x, y⟩ := hd
    cases n with
    | zero => simp [extract_go]
    | succ n =>
      by_cases hf : is_function_v1 x y
      · simp [extract_go, hf, ih]
      · simp [extract_go, hf, List.filter_cons, ih n]
        omega

theorem gfMulGo_lt : ∀ fuel aa bb res, res < 2 ^ 8 → gfMulGo fuel aa bb res < 2 ^ 8
  | 0, _, _, _, h => h
  | fuel + 1, aa, bb, res, h => by
    unfold gfMulGo
    split
    · exact h
    · apply gfMulGo_lt
      split
      · exact Nat.xor_lt_two_pow h (Nat.and_lt_two_pow aa (by norm_num))
      · exact h

theorem gf_mul_lt (a b : Nat) : gf_mul a b < 2 ^ 8 :=
  gfMulGo_lt 8 a b 0 (by norm_num)

theorem gfMulGo_zero_bb (fuel aa res : Nat) : gfMulGo fuel aa 0 res = res := by
  cases fuel <;> simp [gfMulGo]

theorem gf_mul_one (a : Nat) (h : a < 2 ^ 8) : gf_mul a 1 = a := by
  show gfMulGo 8 a 1 0 = a
  rw [gfMulGo]
  simp only [if_neg (by decide : ¬ (1 : Nat) = 0),
    if_pos (by decide : (1 : Nat) &&& 1 ≠ 0),
    (by decide : (1 : Nat) >>> 1 = 0), gfMulGo_zero_bb, Nat.zero_xor]
  rw [(by decide : (255 : Nat) = 2 ^ 8 - 1), Nat.and_pow_two_sub_one_eq_mod,
    Nat.mod_eq_of_lt h]

theorem stepMulAux_eq (a : Nat) :
    ∀ (gs : List Nat) (g0 : Nat), (∀ c ∈ gs, c < 2 ^ 8) →
      stepMulAux a g0 gs = polyAddAsc [g0] (poly_mul_asc gs [a, 1])
  | [], g0, _ => by
    simp [stepMulAux, poly_mul_asc, polyAddAsc]
  | g1 :: gs1, g0, hb => by
    have hg1 : g1 < 2 ^ 8 := hb g1 (by simp)
    have ih := stepMulAux_eq a gs1 g1 (fun c hc => hb c (by simp [hc]))
    simp only [stepMulAux, poly_mul_asc, List.map_cons, List.map_nil, polyAddAsc,
      Nat.xor_zero, gf_mul_one g1 hg1]
    rw [ih]

theorem stepMul_eq (g : List Nat) (a : Nat) (hne : g ≠ [])
    (hb : ∀ c ∈ g, c < 2 ^ 8) : stepMul g a = poly_mul_asc g [a, 1] := by
  match g with
  | [] => exact absurd rfl hne
  | g0 :: gs =>
    have hg0 : g0 < 2 ^ 8 := hb g0 (by simp)
    simp only [stepMul, poly_mul_asc, List.map_cons, List.map_nil, polyAddAsc,
      Nat.xor_zero, gf_mul_one g0 hg0]
    exact congrArg _ (stepMulAux_eq a gs g0 (fun c hc => hb c (by simp [hc])))

theorem stepMulAux_bound (a : Nat) :
    ∀ (gs : List Nat) (g0 : Nat), g0 < 2 ^ 8 → (∀ c ∈ gs, c < 2 ^ 8) →
      ∀ c ∈ stepMulAux a g0 gs, c < 2 ^ 8
  | [], g0, h0, _ => by
    intro c hc
    simp [stepMulAux] at hc
    simpa [hc] using h0
  | g1 :: gs1, g0, h0, hb => by
    intro c hc
    simp only [stepMulAux, List.mem_cons] at hc
    rcases hc with hc | hc
    · subst hc
      exact Nat.xor_lt_two_pow h0 (gf_mul_lt g1 a)
    · exact stepMulAux_bound a gs1 g1 (hb g1 (by simp))
        (fun d hd => hb d (by simp [hd])) c hc

theorem stepMul_bound (g : List Nat) (a : Nat) (hb : ∀ c ∈ g, c < 2 ^ 8) :
    ∀ c ∈ stepMul g a, c < 2 ^ 8 := by
  match g with
  | [] => intro c hc; simp [stepMul] at hc; simp [hc]
  | g0 :: gs =>
    intro c hc
    simp only [stepMul, List.mem_cons] at hc
    rcases hc with hc | hc
    · subst hc; exact gf_mul_lt g0 a
    · exact stepMulAux_bound a gs g0 (hb g0 (by simp))
        (fun d hd => hb d (by simp [hd])) c hc

theorem stepMul_ne_nil (g : List Nat) (a : Nat) : stepMul g a ≠ [] := by
  match g with
  | [] => simp [stepMul]
  | g0 :: gs => simp [stepMul]

theorem genFoldEq : ∀ (l : List Nat) (g : List Nat), g ≠ [] → (∀ c ∈ g, c < 2 ^ 8) →
    l.foldl (fun g (i : Nat) => stepMul g (gf_pow 2 (i : Int))) g =
      l.foldl (fun g (i : Nat) => poly_mul_asc g [gf_pow 2 (i : Int), 1]) g
  | [], _, _, _ => rfl
  | i :: l, g, hne, hb => by
    simp only [List.foldl_cons]
    rw [← stepMul_eq g (gf_pow 2 (i : Int)) hne hb]
    exact genFoldEq l _ (stepMul_ne_nil g _) (stepMul_bound g _ hb)

theorem generator_poly_eq_spec (t : Nat) : generator_poly t = spec_gen_roots 0 t := by
  unfold generator_poly spec_gen_roots
  simp only [Nat.zero_add]
  exact genFoldEq (List.range t) [1] (by simp)
    (by intro c hc; simp only [List.mem_singleton] at hc; subst hc; norm_num)

theorem xor_foldl_init (f : Nat → Nat) :
    ∀ (l : List Nat) (a : Nat),
      l.foldl (fun acc i => acc ^^^ f i) a = a ^^^ l.foldl (fun acc i => acc ^^^ f i) 0
  | [], a => by simp
  | x :: xs, a => by
    simp only [List.foldl_cons]
    rw [xor_foldl_init f xs (a ^^^ f x), xor_foldl_init f xs (0 ^^^ f x)]
    simp [Nat.xor_assoc]

theorem syndromeSum_nil (e : Nat) : syndromeSum [] e = 0 := rfl

theorem syndromeSum_cons (c : Nat) (cs : List Nat) (e : Nat) :
    syndromeSum (c :: cs) e =
      gf_mul c (gf_pow e (cs.length : Int)) ^^^ syndromeSum cs e := by
  unfold syndromeSum
  simp only [List.length_cons, List.range_succ_eq_map, List.foldl_cons, List.foldl_map,
    List.getD_cons_zero, List.getD_cons_succ, gf_add]
  have harith : ∀ j : Nat, cs.length + 1 - 1 - Nat.succ j = cs.length - 1 - j := by
    intro j; omega
  have harith0 : cs.length + 1 - 1 - 0 = cs.length := by omega
  simp only [harith, harith0, Nat.zero_xor]
  exact xor_foldl_init _ (List.range cs.length) _

theorem revPowSumGo_append (e : Nat) :
    ∀ (l : List Nat) (c : Nat) (j : Nat),
      revPowSumGo e (l ++ [c]) j =
        revPowSumGo e l j ^^^ gf_mul c (gf_pow e ((j + l.length : Nat) : Int))
  | [], c, j => by
    simp [revPowSumGo, gf_add, Nat.xor_comm]
  | d :: l, c, j => by
    simp only [List.cons_append, revPowSumGo, gf_add, List.append_eq]
    rw [revPowSumGo_append e l c (j + 1)]
    have harith : j + 1 + l.length = j + (d :: l).length := by
      simp [List.length_cons]; omega
    rw [harith, Nat.xor_assoc]

theorem spec_eval_cons (c : Nat) (cs : List Nat) (e : Nat) :
    spec_poly_eval_at (c :: cs) e =
      gf_mul c (gf_pow e (cs.length : Int)) ^^^ spec_poly_eval_at cs e := by
  unfold spec_poly_eval_at
  rw [List.reverse_cons, revPowSumGo_append]
  simp [Nat.xor_comm]

theorem syndromeSum_eq_spec : ∀ (cw : List Nat) (e : Nat),
    syndromeSum cw e = spec_poly_eval_at cw e
  | [], e => rfl
  | c :: cs, e => by
    rw [syndromeSum_cons, spec_eval_cons, syndromeSum_eq_spec cs e]

theorem compute_syndromes_eq_spec (cw : List Nat) (t : Nat) :
    compute_syndromes cw t = spec_syndromes 0 cw t := by
  unfold compute_syndromes spec_syndromes
  simp [Nat.zero_add, syndromeSum_eq_spec]

/-- Indexing the sampled grid at y*21+x yields the bit of module (x,y). -/
theorem qr_sample_grid_getD (L : Nat → Nat → List Nat) (x y : Nat)
    (hx : x < N1) (hy : y < N1) :
    (qr_sample_grid L).getD (y * N1 + x) false = module_bit (L x y) := by
  unfold qr_sample_grid
  have hidx : y * N1 + x < N1 * N1 := by simp [N1] at hx hy ⊢; omega
  rw [List.getD_eq_getElem?_getD, List.getElem?_map, List.getElem?_range hidx]
  have h1 : (y * N1 + x) % N1 = x := by simp [N1] at hx ⊢; omega
  have h2 : (y * N1 + x) / N1 = y := by simp [N1] at hx ⊢; omega
  simp [h1, h2]

theorem readLeftDigits_length (mods : List Nat) :
    ∀ (n idx : Nat) (l : List (Nat × Bool)),
      readLeftDigits mods n idx = some l → l.length = n
  | 0, idx, l, h => by
    simp [readLeftDigits] at h
    simp [← h]
  | n + 1, idx, l, h => by
    simp only [readLeftDigits] at h
    split at h
    · exact absurd h (by simp)
    · rcases Option.map_eq_some'.mp h with ⟨rest, hrest, hl⟩
      subst hl
      simp [readLeftDigits_length mods n (idx + 4) rest hrest]

theorem readRightDigits_length (mods : List Nat) :
    ∀ (n idx : Nat) (l : List Nat),
      readRightDigits mods n idx = some l → l.length = n
  | 0, idx, l, h => by
    simp [readRightDigits] at h
    simp [← h]
  | n + 1, idx, l, h => by
    simp only [readRightDigits] at h
    split at h
    · exact absurd h (by simp)
    · rcases Option.map_eq_some'.mp h with ⟨rest, hrest, hl⟩
      subst hl
      simp [readRightDigits_length mods n (idx + 4) rest hrest]

theorem ean13_decode_modules_inv (mods : List Nat) (s : String)
    (h : ean13_decode_modules mods = some s) :
    ∃ i, find_guard_start mods = some i ∧
      is_guard_center mods (i + 27) = true ∧
      is_guard_end mods (i + 56) = true ∧
      ∃ digits, digits.length = 13 ∧ check_ean13_checksum digits = true ∧
        s = renderEan digits := by
  unfold ean13_decode_modules at h
  split at h
  · exact absurd h (by simp)
  · rename_i i hfg
    split at h
    · exact absurd h (by simp)
    · rename_i left hleft
      split at h
      · rename_i hcen
        split at h
        · exact absurd h (by simp)
        · rename_i right hright
          split at h
          · rename_i hend
            split at h
            · exact absurd h (by simp)
            · rename_i first hfirst
              dsimp only at h
              split at h
              · rename_i hchk
                refine ⟨i, hfg, hcen, hend,
                  first :: (left.map (fun e => e.1) ++ right), ?_, hchk, ?_⟩
                · simp [readLeftDigits_length mods 6 (i + 3) left hleft,
                    readRightDigits_length mods 6 (i + 32) right hright]
                · exact (Option.some_inj.mp h).symm
              · exact absurd h (by simp)
          · exact absurd h (by simp)
      · exact absurd h (by simp)

theorem ean13_decode_row_nil (opts : DecodeOptions) : ean13_decode_row [] opts = none := by
  unfold ean13_decode_row
  split
  · rfl
  · rfl

theorem code128_decode_row_nil (opts : DecodeOptions) : code128_decode_row [] opts = none := by
  unfold code128_decode_row
  split
  · rfl
  · rfl

theorem ean13ScanStep_zero_width (data : List Nat) (h : Nat) (opts : DecodeOptions)
    (rows : Nat) (out : List Barcode) (i : Nat) :
    ean13ScanStep ⟨data, 0, h⟩ opts rows (some out) i = some out := by
  unfold ean13ScanStep imageRow
  simp [ean13_decode_row_nil]

theorem code128ScanStep_zero_width (data : List Nat) (h : Nat) (opts : DecodeOptions)
    (rows : Nat) (out : List Barcode) (i : Nat) :
    code128ScanStep ⟨data, 0, h⟩ opts rows (some out) i = some out := by
  unfold code128ScanStep imageRow
  simp [code128_decode_row_nil]

theorem ean13Fold_zero_width (data : List Nat) (h : Nat) (opts : DecodeOptions)
    (rows : Nat) :
    ∀ (l : List Nat) (out : List Barcode),
      l.foldl (ean13ScanStep ⟨data, 0, h⟩ opts rows) (some out) = some out
  | [], _ => rfl
  | i :: l, out => by
    rw [List.foldl_cons, ean13ScanStep_zero_width]
    exact ean13Fold_zero_width data h opts rows l out

theorem code128Fold_zero_width (data : List Nat) (h : Nat) (opts : DecodeOptions)
    (rows : Nat) :
    ∀ (l : List Nat) (out : List Barcode),
      l.foldl (code128ScanStep ⟨data, 0, h⟩ opts rows) (some out) = some out
  | [], _ => rfl
  | i :: l, out => by
    rw [List.foldl_cons, code128ScanStep_zero_width]
    exact code128Fold_zero_width data h opts rows l out

/-! ## Claims -/

/-- C1: the hard-coded format read table FORMAT_READ_PATHS_V1 does not match
the coordinate lists of the specification: copy A reads the timing cell
(8,6) instead of descending y in {7,5,4,3,2,1,0}, and copy B reads the
column x=20 (finder border) instead of the column x=8 / row y=8 cells.
The specification's coordinates are exactly the cells where the repository's
own encoder (synthesize_qr_v1_from_text) writes the two format copies, so
the reader contradicts the encoder. -/
theorem C1_format_read_paths_mismatch :
    FORMAT_READ_PATHS_V1.getD 0 [] ≠ spec_format_path_a ∧
    FORMAT_READ_PATHS_V1.getD 1 [] ≠ spec_format_path_b ∧
    (FORMAT_READ_PATHS_V1.getD 0 []).getD 9 (0, 0) = (8, 6) ∧
    (FORMAT_READ_PATHS_V1.getD 1 []).getD 0 (0, 0) = (20, 0) ∧
    spec_format_path_b.contains (20, 0) = false ∧
    enc_format_path_a = spec_format_path_a ∧
    (enc_format_path_b.all fun p => spec_format_path_b.contains p) = true ∧
    (spec_format_path_b.all fun p => enc_format_path_b.contains p) = true := by
  exact ⟨by decide, by decide, by decide, by decide, by decide, by decide,
    by decide, by decide⟩

/-- C2 counterexample: the zig-zag path of walk_pairs_v1 does visit column
x = 6 (for example the coordinate (6,20)), and the entry right after the
(8,7) pair block (position 294) is (6,0), not a member of the (5,4) pair. -/
theorem C2_zigzag_visits_col6 :
    walk_pairs_v1.contains (6, 20) = true ∧
    walk_pairs_v1.getD 293 (0, 0) = (7, 0) ∧
    walk_pairs_v1.getD 294 (0, 0) = (6, 0) := by
  exact ⟨by decide, by decide, by decide⟩

/-- C2 amended: walk_pairs_v1 traverses all 441 grid coordinates including
column x=6; immediately after the (8,7) pair comes the (6,5) pair; yet no
extracted data bit ever comes from column x=6 because that whole column is
function modules, so the non-function coordinates along the path avoid x=6. -/
theorem C2_zigzag_amended :
    walk_pairs_v1.length = 441 ∧
    ((List.range 441).all fun i => walk_pairs_v1.contains (i % 21, i / 21)) = true ∧
    (walk_pairs_v1.getD 294 (0, 0) = (6, 0) ∧ walk_pairs_v1.getD 295 (0, 0) = (5, 0)) ∧
    ((walk_pairs_v1.filter fun p => !(is_function_v1 p.1 p.2)).all
      fun p => p.1 ≠ 6) = true := by
  exact ⟨by decide, by decide, ⟨by decide, by decide⟩, by decide⟩

/-- C7: exactly 233 of the 441 grid coordinates are function modules, 208
are data modules, and extract_data_bits_v1 returns exactly 208 bits for
every grid. -/
theorem C7_function_count_and_bit_count :
    ((List.range 441).countP fun i => is_function_v1 (i % 21) (i / 21)) = 233 ∧
    ((List.range 441).countP fun i => !(is_function_v1 (i % 21) (i / 21))) = 208 ∧
    ∀ g : Nat → Bool, (extract_data_bits_v1 g).length = 208 := by
  refine ⟨by decide, by decide, fun g => ?_⟩
  unfold extract_data_bits_v1
  rw [extract_go_length]
  decide

/-- C8: decoding the masked 15-bit format codeword produced by the encoder
recovers the original EC level and mask id at Hamming distance 0, for all
4 x 8 combinations. -/
theorem C8_format_word_roundtrip :
    ([EcLevel.L, EcLevel.M, EcLevel.Q, EcLevel.H].all fun ec =>
      (List.range 8).all fun m =>
        decide (decode_format_word (encode_format_word_masked ec m) = some (ec, m, 0)))
      = true := by
  decide

/-- C3 counterexample: the claim says the generator roots are alpha^1 to
alpha^(ec_len) and the syndromes S_k = C(alpha^k) for k = 1..ec_len.
At ec_len = 1 the code builds g(x) = x + 1 (root alpha^0 = 1), not
x + alpha, and for the codeword [1, 0] it computes S = C(alpha^0) = 1,
not C(alpha^1) = 2. -/
theorem C3_narrow_sense_counterexample :
    generator_poly 1 = [1, 1] ∧ spec_gen_roots 1 1 = [2, 1] ∧
    generator_poly 1 ≠ spec_gen_roots 1 1 ∧
    compute_syndromes [1, 0] 1 = [1] ∧ spec_syndromes 1 [1, 0] 1 = [2] ∧
    compute_syndromes [1, 0] 1 ≠ spec_syndromes 1 [1, 0] 1 := by
  refine ⟨by decide, by decide, by decide, by decide, by decide, by decide⟩

/-- C3 amended: for every ec_len the encoder generator polynomial is the
product of (x - alpha^i) for i = 0..ec_len-1 (roots alpha^0..alpha^(ec_len-1),
not the narrow-sense alpha^1..alpha^(ec_len)), and for every codeword slice
the decoder syndromes are S_k = C(alpha^k) for k = 0..ec_len-1 where
C(x) = sum of c_i x^(n-1-i). -/
theorem C3_roots_amended :
    (∀ t, generator_poly t = spec_gen_roots 0 t) ∧
    (∀ cw t, compute_syndromes cw t = spec_syndromes 0 cw t) :=
  ⟨generator_poly_eq_spec, compute_syndromes_eq_spec⟩

/-- C5: on the block [1, 0, 0] with data_len = 1 and ec_len = 2 the
syndromes are nonzero, and rs_correct_codeword_block panics (index out of
bounds, c[1] on a length-1 vector inside berlekamp_massey) instead of
returning the error result the claim describes.  The crash happens on any
block with nonzero syndromes and ec_len at least 2, including the
single-error v1-L block of the crate's own unit test
corrects_single_error_in_v1_l_block. -/
theorem C5_rs_correct_crashes :
    rs_correct_codeword_block [1, 0, 0] 1 2 = RsOutcome.crash ∧
    compute_syndromes [1, 0, 0] 2 = [1, 4] := by
  refine ⟨by decide, by decide⟩

/-- C4 counterexample: with module (0,0) sampled at 140 and the other 440
modules at 255, the mean of the 441 centers is about 254.7, so the spec
marks (0,0) dark (140 < mean), but the code compares with the fixed
constant 128 and leaves it light. -/
theorem C4_threshold_counterexample :
    (qr_sample_grid exLum9).getD 0 false = false ∧
    (spec_mean_grid exCenter).getD 0 false = true := by
  refine ⟨by decide, by decide⟩

/-- C4 amended: the grid-stage binarization thresholds each module's
9-sample average against the fixed constant 128 (is_dark), and the bit of
module (x,y) depends only on that module's own samples, never on the mean
of the 441 sampled centers. -/
theorem C4_threshold_amended :
    (∀ L x y, x < N1 → y < N1 →
      (qr_sample_grid L).getD (y * N1 + x) false =
        is_dark ((L x y).foldl (· + ·) 0 / 9)) ∧
    (∀ L Lp x y, x < N1 → y < N1 → L x y = Lp x y →
      (qr_sample_grid L).getD (y * N1 + x) false =
        (qr_sample_grid Lp).getD (y * N1 + x) false) := by
  constructor
  · intro L x y hx hy
    rw [qr_sample_grid_getD L x y hx hy]
    rfl
  · intro L Lp x y hx hy h
    rw [qr_sample_grid_getD L x y hx hy, qr_sample_grid_getD Lp x y hx hy, h]

/-- C4 witness: the amended theorem applied at module (0,0) of the concrete
sample assignments. -/
theorem C4_threshold_amended_witness :
    (0 < N1 ∧ exLum9 0 0 = exLum9b 0 0) ∧
    (qr_sample_grid exLum9).getD (0 * N1 + 0) false =
      is_dark ((exLum9 0 0).foldl (· + ·) 0 / 9) ∧
    (qr_sample_grid exLum9).getD (0 * N1 + 0) false =
      (qr_sample_grid exLum9b).getD (0 * N1 + 0) false :=
  ⟨⟨by decide, by decide⟩,
    C4_threshold_amended.1 exLum9 0 0 (by decide) (by decide),
    C4_threshold_amended.2 exLum9 exLum9b 0 0 (by decide) (by decide) (by decide)⟩

/-- C6 counterexample: a row whose first right-half digit pattern is
(4,4,4,4) - at Manhattan distance 9 from every C pattern, and 9 is the
maximum distance any quantized pattern can have - is still accepted by
decode_row and decodes to 000000000000, so no out-of-range best-match
distance causes rejection. -/
theorem C6_distance_counterexample :
    ean13_decode_row c6_corrupt_row DecodeOptions.default = some ("000000000000") ∧
    ((normalize_modules (binarize_row_adaptive c6_corrupt_row)
        (runs (binarize_row_adaptive c6_corrupt_row))).1.drop 33).take 4 = [4, 4, 4, 4] ∧
    best_match (4, 4, 4, 4) C_PATTERNS = (0, 9) ∧
    ((List.range 4).all fun a => (List.range 4).all fun b =>
      (List.range 4).all fun c => (List.range 4).all fun d =>
        decide ((best_match (a + 1, b + 1, c + 1, d + 1) C_PATTERNS).2 ≤ 9)) = true := by
  refine ⟨by decide, by decide, by decide, by decide⟩

/-- Decomposition of decode_row: the length gate, then the module stream
of the row (ean13_modules_of), then the guard/digit/checksum decode. -/
theorem ean13_decode_row_eq (row : List Nat) (opts : DecodeOptions) :
    ean13_decode_row row opts =
      if row.length < opts.min_modules then none
      else
        match ean13_modules_of row with
        | none => none
        | some m => ean13_decode_modules m := by
  unfold ean13_decode_row ean13_modules_of
  by_cases hlen : row.length < opts.min_modules
  · simp [hlen]
  · simp only [hlen, if_false]
    by_cases h40 : 40 ≤ (runs (binarize_row_adaptive row)).length
    · simp [h40]
    · simp only [h40, if_false]
      by_cases h40b : (runs (binarize_row row)).length < 40
      · simp [h40b]
      · simp [h40b]

/-- C6 amended: (1) whenever decode_row succeeds on a pixel row, the module
stream it derived from that row (ean13_modules_of) carried a start guard,
a center guard 27 positions later, an end guard 56 positions later, and 13
digits passing the mod-10 checksum whose rendering is the returned text;
(2)-(4) a module stream with no start guard, or whose center or end guard
check fails at the position the decoder inspects, is always rejected.
Mismatched guards and checksum failures therefore reject the row, while
the best-match distance is computed and discarded: it is never compared
against any bound (see the counterexample). -/
theorem C6_reject_amended :
    (∀ (row : List Nat) (opts : DecodeOptions) (s : String),
      ean13_decode_row row opts = some s →
      ∃ mods, ean13_modules_of row = some mods ∧
        ∃ i, find_guard_start mods = some i ∧
          is_guard_center mods (i + 27) = true ∧
          is_guard_end mods (i + 56) = true ∧
          ∃ digits, digits.length = 13 ∧ check_ean13_checksum digits = true ∧
            s = renderEan digits) ∧
    (∀ mods : List Nat, find_guard_start mods = none →
      ean13_decode_modules mods = none) ∧
    (∀ (mods : List Nat) (i : Nat), find_guard_start mods = some i →
      is_guard_center mods (i + 27) = false → ean13_decode_modules mods = none) ∧
    (∀ (mods : List Nat) (i : Nat), find_guard_start mods = some i →
      is_guard_end mods (i + 56) = false → ean13_decode_modules mods = none) := by
  refine ⟨?_, ?_, ?_, ?_⟩
  · intro row opts s h
    rw [ean13_decode_row_eq] at h
    split at h
    · exact absurd h (by simp)
    · split at h
      · exact absurd h (by simp)
      · rename_i m hm
        exact ⟨m, hm, ean13_decode_modules_inv m s h⟩
  · intro mods hfg
    unfold ean13_decode_modules
    rw [hfg]
  · intro mods i hfg hcen
    unfold ean13_decode_modules
    rw [hfg]
    dsimp only
    split
    · rfl
    · simp [hcen]
  · intro mods i hfg hend
    unfold ean13_decode_modules
    rw [hfg]
    dsimp only
    split
    · rfl
    · split
      · split
        · rfl
        · simp [hend]
      · rfl

/-- C6 witness: part (1) of the amended theorem applied to the clean
all-zero EAN-13 row, which decodes to 000000000000. -/
theorem C6_reject_amended_witness :
    ∃ mods, ean13_modules_of c6_clean_row = some mods ∧
      ∃ i, find_guard_start mods = some i ∧
        is_guard_center mods (i + 27) = true ∧
        is_guard_end mods (i + 56) = true ∧
        ∃ digits, digits.length = 13 ∧ check_ean13_checksum digits = true ∧
          ("000000000000" : String) = renderEan digits :=
  C6_reject_amended.1 c6_clean_row DecodeOptions.default "000000000000" (by decide)

set_option maxHeartbeats 4000000 in
/-- C9 counterexample: the text !T is in the valid set-B domain
(ASCII 32..127), yet decoding the row synthesized for it at unit 2 with
default options returns None: the color-blind STOP scan fires on a spurious
7-run window inside the data (runs [2,6,6,2,2,2,4]x2 normalize exactly to
the STOP pattern), and the backward walk from there meets a 6-run block
farther than distance 1 from every pattern. -/
theorem C9_roundtrip_counterexample :
    code128_decode_row (synthesize_row_code128 ("!T") 'B' 2) DecodeOptions.default = none ∧
    (("!T" : String).toList.all fun ch => decide (32 ≤ ch.toNat ∧ ch.toNat ≤ 127)) = true := by
  refine ⟨by decide, by decide⟩

set_option maxHeartbeats 4000000 in
/-- C9 amended: the synthesize-then-decode round trip at unit 2 holds for
the repository's own test vectors (HELLO-128 and ABcd[] in set B,
0123456789 in set C) but not for every text of the valid domain. -/
theorem C9_roundtrip_amended :
    code128_decode_row (synthesize_row_code128 ("HELLO-128") 'B' 2) DecodeOptions.default
      = some ("HELLO-128") ∧
    code128_decode_row (synthesize_row_code128 ("0123456789") 'C' 2) DecodeOptions.default
      = some ("0123456789") ∧
    code128_decode_row (synthesize_row_code128 ("ABcd[]") 'B' 2) DecodeOptions.default
      = some ("ABcd[]") := by
  refine ⟨by decide, by decide, by decide⟩

/-- C10: for every image with zero width or zero height (and buffer length
width times height), both 1D entry points return the empty list and no
slice access leaves the buffer (a panic is modelled as None, and the
result is some []). -/
theorem C10_empty_image_returns_empty :
    ∀ (w h : Nat) (data : List Nat) (opts : DecodeOptions),
      w = 0 ∨ h = 0 → data.length = w * h →
      decode_ean13_upca ⟨data, w, h⟩ opts = some [] ∧
      decode_code128 ⟨data, w, h⟩ opts = some [] := by
  intro w h data opts hwh _hlen
  rcases hwh with hw | hh
  · subst hw
    exact ⟨ean13Fold_zero_width data h opts _ _ [],
           code128Fold_zero_width data h opts _ _ []⟩
  · subst hh
    constructor
    · unfold decode_ean13_upca
      simp
    · unfold decode_code128
      simp

/-- C10 witness: the theorem applied to the 0x5 empty image with default
options. -/
theorem C10_empty_image_witness :
    ((0 : Nat) = 0 ∨ (5 : Nat) = 0) ∧ ([] : List Nat).length = 0 * 5 ∧
    (decode_ean13_upca ⟨[], 0, 5⟩ DecodeOptions.default = some [] ∧
     decode_code128 ⟨[], 0, 5⟩ DecodeOptions.default = some []) :=
  ⟨Or.inl rfl, rfl,
    C10_empty_image_returns_empty 0 5 [] DecodeOptions.default (Or.inl rfl) rfl⟩
